import Mathlib

/-!
# G4VoxelData: voxel parameterisation and DICOM slice stacking

A shallow embedding of `include/G4VoxelDataParameterisation.hh` and
`include/DicomDataIO.hh`.

Conventions of the embedding:

* `G4double` / `double` values are exact rationals (`ℚ`).
* `G4int` / `unsigned int` values are `Int` / `Nat`; where the source narrows
  a `double` to `int` (the index of `ComputeMaterial`) the embedding narrows
  to 32 bits too.
* A C++ exception that leaves a function and an unchecked access outside a
  vector are results of type `Failure`.
* A local variable read before any assignment holds an arbitrary value, which
  is an argument of the embedded function.
* Values that come from outside the two headers (the gdcm decoder, the bound
  voxel array, the host touchable) are parameters.
-/

namespace G4Voxel

/-! ## Shared data model -/

/-- Ways in which a call of the embedded code does not produce a value. -/
inductive Failure where
  /-- The exception `std::out_of_range` thrown by `std::map::at`. -/
  | out_of_range
  /-- An unchecked `operator[]` outside the bounds of a `std::vector`. -/
  | undefined_behaviour
  deriving DecidableEq, Repr

/-- The three components of a `G4ThreeVector`. -/
structure G4ThreeVector where
  x : ℚ
  y : ℚ
  z : ℚ
  deriving DecidableEq

/-- Conversion of a `double` to `G4int`, a 32-bit `int`: the fractional part is
discarded (truncation towards zero). When the truncated value lies outside
`[-2147483648, 2147483647]` C++ defines no result; the value taken here is
`-2147483648`, which is what the x86-64 conversion instruction delivers. -/
def G4int_of_double (q : ℚ) : Int :=
  let truncated := Int.tdiv q.num q.den
  if -2147483648 ≤ truncated ∧ truncated ≤ 2147483647 then truncated else -2147483648

/-- Unchecked element read `v[i]` of a `std::vector`. -/
def vector_get {α : Type} (v : List α) (i : Nat) : Except Failure α :=
  match v[i]? with
  | some a => .ok a
  | none => .error .undefined_behaviour

/-- Unchecked element write `v[i] = a` of a `std::vector`. -/
def vector_set {α : Type} (v : List α) (i : Nat) (a : α) : Except Failure (List α) :=
  if i < v.length then .ok (v.set i a) else .error .undefined_behaviour

/-- Range constructor `std::vector<α>(p, p + n)`: the `n` elements found at
`p + 0`, ..., `p + (n - 1)`; `p k` is the element stored at `p + k`. -/
def vector_of_range {α : Type} (p : Nat → α) (n : Nat) : List α :=
  (List.range n).map p

/-! ## `G4VoxelDataParameterisation.hh` -/

/-- Modelled from the spec: `G4VoxelArray.hh` is not among the sources. The
bound voxel array is the record of the member functions the parameterisation
calls: the voxel size, the volume shape, the cell count and the quantisation
function `GetRoundedValue(index, lower, upper, width)`. -/
structure G4VoxelArray (T : Type) where
  GetVoxelSize : G4ThreeVector
  GetVolumeShape : G4ThreeVector
  length : Nat
  GetRoundedValue : Int → Int → Int → Int → T

/-- The part of a `G4VPhysicalVolume` the parameterisation writes: its
translation and the material of its logical volume (`none` until set). -/
structure G4VPhysicalVolume (M : Type) where
  translation : G4ThreeVector
  material : Option M

/-- The part of a `G4VTouchable` the parameterisation reads. -/
structure G4VTouchable where
  GetReplicaNumber : Nat → Int

/-- The data members of `G4VoxelDataParameterisation<T>` that its member
functions read; `M` stands for `G4Material*`. -/
structure G4VoxelDataParameterisation (T : Type) (M : Type) where
  voxel_size : G4ThreeVector
  volume_shape : G4ThreeVector
  materials_map : AList (fun _ : T => M)
  array : G4VoxelArray T

namespace G4VoxelDataParameterisation

variable {T M : Type} [DecidableEq T]

/-- The constructor: copies the voxel size and the volume shape out of the
array. -/
def construct (array : G4VoxelArray T) (materials_map : AList (fun _ : T => M)) :
    G4VoxelDataParameterisation T M :=
  { voxel_size := array.GetVoxelSize
    volume_shape := array.GetVolumeShape
    materials_map := materials_map
    array := array }

/-- `GetNumberOfMaterials`. -/
def GetNumberOfMaterials (p : G4VoxelDataParameterisation T M) : Nat :=
  p.array.length

/-- `GetMaterial(i)`: quantise the value at `i` with the fixed window
`-1000, 2000, 25` and look the bucket up with `std::map::at`. -/
def GetMaterial (p : G4VoxelDataParameterisation T M) (i : Int) : Except Failure M :=
  let hu := p.array.GetRoundedValue i (-1000) 2000 25
  match p.materials_map.lookup hu with
  | some material => .ok material
  | none => .error .out_of_range

/-- The local `index` of `ComputeMaterial`: the copy number is raised to zero
when negative, the sum is formed in `double` and converted to `int`. -/
def ComputeMaterial_index (volume_shape : G4ThreeVector) (x y copy_number : Int) : Int :=
  let z := copy_number
  let z := if z < 0 then 0 else z
  G4int_of_double
    ((x : ℚ) + (volume_shape.x * (y : ℚ)) + (volume_shape.x * volume_shape.y * (z : ℚ)))

/-- `ComputeMaterial(physical_volume, copy_number, parent_touchable)`: returns
the material and the physical volume with that material set. -/
def ComputeMaterial (p : G4VoxelDataParameterisation T M)
    (physical_volume : G4VPhysicalVolume M) (copy_number : Int)
    (parent_touchable : G4VTouchable) : Except Failure (M × G4VPhysicalVolume M) :=
  let x := parent_touchable.GetReplicaNumber 0
  let y := parent_touchable.GetReplicaNumber 1
  let index := ComputeMaterial_index p.volume_shape x y copy_number
  match p.GetMaterial index with
  | .ok VoxelMaterial =>
      .ok (VoxelMaterial, { physical_volume with material := some VoxelMaterial })
  | .error e => .error e

/-- `GetMaterialIndex(copyNo)`. -/
def GetMaterialIndex (_p : G4VoxelDataParameterisation T M) (copyNo : Nat) : Nat :=
  copyNo

/-- `ComputeTransformation(copyNo, physVol)`: the physical volume with its
translation set. -/
def ComputeTransformation (p : G4VoxelDataParameterisation T M) (copyNo : Int)
    (physVol : G4VPhysicalVolume M) : G4VPhysicalVolume M :=
  let x : ℚ := 0
  let y : ℚ := 0
  let z : ℚ := ((2 * copyNo + 1 : Int) : ℚ) * p.voxel_size.x / 2
    - p.voxel_size.z * p.volume_shape.z / 2
  let position : G4ThreeVector := ⟨x, y, z⟩
  { physVol with translation := position }

end G4VoxelDataParameterisation

/-! ## `DicomDataIO.hh` -/

/-- The sample encoding tag handed to the `G4VoxelData` constructor; `INT16`
is the only one the sources name. -/
inductive G4VoxelDataType where
  | INT16
  deriving DecidableEq, Repr

/-- Modelled from the spec: `G4VoxelData.hh` is not among the sources. A
`G4VoxelData` is the record of the members the reader writes: the sample
buffer `array`, the sample count `length`, `ndims`, and the per-axis vectors
`shape`, `spacing` and `origin`; sample counts and extents are natural
numbers. -/
structure G4VoxelData where
  array : List Int
  length : Nat
  ndims : Nat
  shape : List Nat
  spacing : List ℚ
  origin : List ℚ
  type : G4VoxelDataType
  deriving DecidableEq

/-- What `Read` obtains from the gdcm image of one file: the accessor results,
where a pointer result (`GetDimensions()`, `GetSpacing()`, `GetOrigin()`, the
buffer) is the function from an offset `k` to the element stored at
`pointer + k`. -/
structure Image where
  GetNumberOfDimensions : Nat
  GetBufferLength : Nat
  GetDimensions : Nat → Nat
  GetSpacing : Nat → ℚ
  GetOrigin : Nat → ℚ
  GetBuffer : Nat → Int
  GetIntercept : ℚ
  GetSlope : ℚ

/-- The value of `sizeof(unsigned int)` (four bytes on the ILP32, LP64 and
LLP64 data models). -/
def sizeof_unsigned_int : Nat := 4

/-- The value of `sizeof(double)` (eight bytes, IEEE 754 binary64). -/
def sizeof_double : Nat := 8

/-- The value of `sizeof(int16_t)`. -/
def sizeof_int16_t : Nat := 2

/-- A slice has an entry at index 2 (and so at 0 and 1) in each of `shape`,
`spacing` and `origin`. -/
def three_axes (s : G4VoxelData) : Prop :=
  2 < s.shape.length ∧ 2 < s.spacing.length ∧ 2 < s.origin.length

instance (s : G4VoxelData) : Decidable (three_axes s) := by
  unfold three_axes
  infer_instance

namespace DicomDataIO

/-- `Read(filename)` once gdcm has decoded the file into `image` (a throw
inside `reader->Read()` ends the program through `G4Exception` before any of
this runs). `Rescale` stands for `gdcm::Rescaler`: given intercept, slope, the
input buffer and its length it gives the contents of `buffer_out`. -/
def Read (Rescale : ℚ → ℚ → (Nat → Int) → Nat → (Nat → Int)) (image : Image) :
    G4VoxelData :=
  let ndims := image.GetNumberOfDimensions
  let buffer_length := image.GetBufferLength
  let shape := vector_of_range image.GetDimensions (sizeof_unsigned_int * ndims)
  let spacing := vector_of_range image.GetSpacing (sizeof_double + ndims)
  let origin := vector_of_range image.GetOrigin (sizeof_double + ndims)
  let buffer_in := image.GetBuffer
  let buffer_out := Rescale image.GetIntercept image.GetSlope buffer_in buffer_length
  let buffer := vector_of_range buffer_out buffer_length
  { array := buffer
    length := buffer_length / sizeof_int16_t
    ndims := ndims
    shape := shape
    spacing := spacing
    origin := origin
    type := G4VoxelDataType.INT16 }

/-- The `for` loop of `ReadDirectory` over `filenames[1]`, `filenames[2]`, ...:
the argument list holds the file names not yet visited, so the test
`i == filenames.size()-1` is that no name follows the current one. The state
is `voxel_data` and the local `last_position`. -/
def ReadDirectory_loop (read : String → G4VoxelData) :
    List String → G4VoxelData → ℚ → Except Failure (G4VoxelData × ℚ)
  | [], voxel_data, last_position => .ok (voxel_data, last_position)
  | filename :: rest, voxel_data, last_position =>
    let vd := read filename
    let array := voxel_data.array ++ vd.array
    let length := voxel_data.length + vd.length
    match vector_get voxel_data.shape 2, vector_get vd.shape 2 with
    | .ok shape2, .ok vd_shape2 =>
      match vector_set voxel_data.shape 2 (shape2 + vd_shape2) with
      | .ok shape =>
        let voxel_data := { voxel_data with array := array, length := length, shape := shape }
        if rest.isEmpty then
          match vector_get vd.origin 2 with
          | .ok vd_origin2 => ReadDirectory_loop read rest voxel_data vd_origin2
          | .error e => .error e
        else
          ReadDirectory_loop read rest voxel_data last_position
      | .error e => .error e
    | .error e, _ => .error e
    | _, .error e => .error e

/-- The statement `voxel_data->origin[k] = voxel_data->origin[k] +
voxel_data->shape[k]*voxel_data->spacing[k]/2`. -/
def recentre_in_plane (voxel_data : G4VoxelData) (k : Nat) : Except Failure G4VoxelData :=
  match vector_get voxel_data.origin k, vector_get voxel_data.shape k,
      vector_get voxel_data.spacing k with
  | .ok origin_k, .ok shape_k, .ok spacing_k =>
    match vector_set voxel_data.origin k (origin_k + (shape_k : ℚ) * spacing_k / 2) with
    | .ok origin => .ok { voxel_data with origin := origin }
    | .error e => .error e
  | .error e, _, _ => .error e
  | _, .error e, _ => .error e
  | _, _, .error e => .error e

/-- `ReadDirectory(directory, modality)` from the point where gdcm has listed,
filtered and sorted the directory into `filenames`. `read f` is the value
`Read` returns for the file `f`. The local `last_position` is declared without
an initial value: the argument `last_position` is the value it happens to
hold. -/
def ReadDirectory (read : String → G4VoxelData) (filenames : List String)
    (last_position : ℚ) : Except Failure G4VoxelData :=
  match vector_get filenames 0 with
  | .error e => .error e
  | .ok filename0 =>
    let voxel_data := read filename0
    match vector_get voxel_data.origin 2 with
    | .error e => .error e
    | .ok first_position =>
      match ReadDirectory_loop read filenames.tail voxel_data last_position with
      | .error e => .error e
      | .ok (voxel_data, last_position) =>
        let voxel_data := { voxel_data with ndims := 3 }
        match recentre_in_plane voxel_data 0 with
        | .error e => .error e
        | .ok voxel_data =>
          match recentre_in_plane voxel_data 1 with
          | .error e => .error e
          | .ok voxel_data =>
            match vector_set voxel_data.origin 2
                (first_position + (last_position - first_position) / 2) with
            | .error e => .error e
            | .ok origin => .ok { voxel_data with origin := origin }

end DicomDataIO

/-- The stacking of a non-empty list of slices as the specification words it:
the buffers appended in list order, the lengths and the axis-2 extents summed,
the in-plane shape of the first slice, three dimensions. It is stated apart
from `ReadDirectory`, to compare the two. -/
structure StackedShape where
  array : List Int
  length : Nat
  shape : List Nat
  ndims : Nat
  deriving DecidableEq

/-- The reference stacking of the slices `first :: rest`. -/
def reference_stacking (first : G4VoxelData) (rest : List G4VoxelData) : StackedShape :=
  { array := ((first :: rest).map (fun s => s.array)).flatten
    length := ((first :: rest).map (fun s => s.length)).sum
    shape := first.shape.set 2 (((first :: rest).map (fun s => s.shape.getD 2 0)).sum)
    ndims := 3 }

/-- The midpoint `first + (last - first)/2` of the axis-2 origins of the first
and the last slice of `first :: rest`, as the specification words it. -/
def reference_axis2_origin (first : G4VoxelData) (rest : List G4VoxelData) : ℚ :=
  let a := first.origin.getD 2 0
  let b := ((first :: rest).getLast?.getD first).origin.getD 2 0
  a + (b - a) / 2

/-! ## Concrete inputs for the parameterisation -/

/-- A voxel array of shape `2 x 3 x 4` with unit voxels whose quantised value
at index `i` is `25 * i`. -/
def example_array : G4VoxelArray Int :=
  { GetVoxelSize := ⟨1, 1, 1⟩
    GetVolumeShape := ⟨2, 3, 4⟩
    length := 24
    GetRoundedValue := fun i _ _ _ => 25 * i }

/-- A parameterisation over `example_array`; materials are numbered, and the
buckets mapped are `0` (material 3) and `575` (material 7). -/
def example_parameterisation : G4VoxelDataParameterisation Int Nat :=
  G4VoxelDataParameterisation.construct example_array
    (((∅ : AList (fun _ : Int => Nat)).insert 0 3).insert 575 7)

/-- A physical volume at the origin with no material set. -/
def example_physical_volume : G4VPhysicalVolume Nat :=
  { translation := ⟨0, 0, 0⟩, material := none }

/-- A touchable whose replica number is `1` at depth 0 and `2` at depth 1. -/
def example_touchable : G4VTouchable :=
  { GetReplicaNumber := fun depth => if depth = 0 then 1 else 2 }

/-! ## Concrete inputs for the reader -/

/-- A slice of shape `(4, 4, 1)`: sixteen two-byte samples, every byte `b`,
unit spacing, origin `(0, 0, z)`. -/
def example_slice (b : Int) (z : ℚ) : G4VoxelData :=
  { array := List.replicate 32 b
    length := 16
    ndims := 3
    shape := [4, 4, 1]
    spacing := [1, 1, 1]
    origin := [0, 0, z]
    type := G4VoxelDataType.INT16 }

/-- A slice of shape `(2, 2, 1)`: four two-byte samples, every byte `9`, unit
spacing, origin `(0, 0, 5)`. -/
def example_small_slice : G4VoxelData :=
  { array := List.replicate 8 9
    length := 4
    ndims := 3
    shape := [2, 2, 1]
    spacing := [1, 1, 1]
    origin := [0, 0, 5]
    type := G4VoxelDataType.INT16 }

/-- A directory of three `(4, 4, 1)` slices with axis-2 origins `0`, `5` and
`10`, and one `(2, 2, 1)` slice. -/
def example_read (filename : String) : G4VoxelData :=
  if filename = "slice0" then example_slice 0 0
  else if filename = "slice1" then example_slice 1 5
  else if filename = "slice2" then example_slice 2 10
  else example_small_slice

/-- A decoded two-dimensional `4 x 4` image: dimensions `4, 4, 1`, unit
spacing, origin zero, 32 bytes of samples. -/
def example_image : Image :=
  { GetNumberOfDimensions := 2
    GetBufferLength := 32
    GetDimensions := fun k => if k < 2 then 4 else 1
    GetSpacing := fun _ => 1
    GetOrigin := fun _ => 0
    GetBuffer := fun _ => 0
    GetIntercept := 0
    GetSlope := 1 }

/-- A rescaler that leaves the buffer as it is. -/
def example_Rescale : ℚ → ℚ → (Nat → Int) → Nat → (Nat → Int) :=
  fun _ _ buffer_in _ => buffer_in

/-! ## Theorems: `G4VoxelDataParameterisation.hh` -/

/-- Converting an integer-valued `double` to `G4int` gives that integer when it
fits in 32 bits, and `-2147483648` otherwise. -/
theorem G4int_of_double_intCast_eq (n : Int) :
    G4int_of_double (n : ℚ)
      = if -2147483648 ≤ n ∧ n ≤ 2147483647 then n else -2147483648 := by
  simp [G4int_of_double]

/-- Converting an integer-valued `double` that fits in 32 bits to `G4int` gives
that integer. -/
theorem G4int_of_double_intCast (n : Int) (hlo : -2147483648 ≤ n) (hhi : n ≤ 2147483647) :
    G4int_of_double (n : ℚ) = n := by
  rw [G4int_of_double_intCast_eq, if_pos ⟨hlo, hhi⟩]

/-- For extents `sx`, `sy`, `sz` every cell within bounds has
`0 ≤ x + sx*y + sx*sy*z < sx*sy*sz`. -/
theorem linear_index_bounds (sx sy sz : Nat) (x y z : Int)
    (hx : 0 ≤ x ∧ x < sx) (hy : 0 ≤ y ∧ y < sy) (hz : 0 ≤ z ∧ z < sz) :
    0 ≤ x + sx * y + sx * sy * z ∧ x + sx * y + sx * sy * z < (sx : Int) * sy * sz := by
  have hsx : (0 : Int) ≤ sx := Int.ofNat_nonneg sx
  have hsy : (0 : Int) ≤ sy := Int.ofNat_nonneg sy
  have hsxy : (0 : Int) ≤ sx * sy := mul_nonneg hsx hsy
  constructor
  · have h1 : (0 : Int) ≤ sx * y := mul_nonneg hsx hy.1
    have h2 : (0 : Int) ≤ sx * sy * z := mul_nonneg hsxy hz.1
    linarith [hx.1]
  · have hy1 : y + 1 ≤ (sy : Int) := hy.2
    have hz1 : z + 1 ≤ (sz : Int) := hz.2
    have h1 : (sx : Int) * (y + 1) ≤ sx * sy := mul_le_mul_of_nonneg_left hy1 hsx
    have h2 : (sx : Int) * sy * (z + 1) ≤ sx * sy * sz := mul_le_mul_of_nonneg_left hz1 hsxy
    nlinarith [hx.2]

/-- Uniqueness of the digits of a number written in a mixed radix: if
`a + n * b = a' + n * b'` with both `a` and `a'` in `[0, n)`, the digits agree. -/
theorem mixed_radix_unique {n a b a' b' : Int} (ha : 0 ≤ a) (han : a < n)
    (ha' : 0 ≤ a') (han' : a' < n) (h : a + n * b = a' + n * b') :
    a = a' ∧ b = b' := by
  have hn : 0 < n := lt_of_le_of_lt ha han
  have hmod : (a + n * b) % n = (a' + n * b') % n := by rw [h]
  rw [Int.add_mul_emod_self_left, Int.add_mul_emod_self_left,
    Int.emod_eq_of_lt ha han, Int.emod_eq_of_lt ha' han'] at hmod
  subst hmod
  refine ⟨rfl, ?_⟩
  have h2 : n * b = n * b' := by linarith
  exact Int.eq_of_mul_eq_mul_left (ne_of_gt hn) h2

namespace G4VoxelDataParameterisation

variable {T M : Type} [DecidableEq T]

/-- For a shape with integer extents and a copy number that is not negative
the index of `ComputeMaterial` is `x + sx*y + sx*sy*z` narrowed to 32 bits. -/
theorem ComputeMaterial_index_of_nat_eq (sx sy sz : Nat) (x y z : Int) (hz : 0 ≤ z) :
    ComputeMaterial_index ⟨sx, sy, sz⟩ x y z
      = if -2147483648 ≤ x + sx * y + sx * sy * z ∧ x + sx * y + sx * sy * z ≤ 2147483647
        then x + sx * y + sx * sy * z else -2147483648 := by
  have hnz : ¬ z < 0 := not_lt.mpr hz
  have hcast : ((x : ℚ) + ((sx : ℚ) * (y : ℚ)) + ((sx : ℚ) * (sy : ℚ) * (z : ℚ)))
      = (((x + sx * y + sx * sy * z : Int)) : ℚ) := by push_cast; ring
  simp only [ComputeMaterial_index, hnz, if_false]
  rw [hcast, G4int_of_double_intCast_eq]

/-- For a shape with integer extents, a copy number that is not negative and a
sum that fits in 32 bits, the index of `ComputeMaterial` is
`x + sx*y + sx*sy*z`. -/
theorem ComputeMaterial_index_of_nat (sx sy sz : Nat) (x y z : Int) (hz : 0 ≤ z)
    (hlo : -2147483648 ≤ x + sx * y + sx * sy * z)
    (hhi : x + sx * y + sx * sy * z ≤ 2147483647) :
    ComputeMaterial_index ⟨sx, sy, sz⟩ x y z = x + sx * y + sx * sy * z := by
  rw [ComputeMaterial_index_of_nat_eq sx sy sz x y z hz, if_pos ⟨hlo, hhi⟩]

/-- A negative copy number is raised to zero in `ComputeMaterial`. -/
theorem ComputeMaterial_negative_copy_number (p : G4VoxelDataParameterisation T M)
    (physical_volume : G4VPhysicalVolume M) (parent_touchable : G4VTouchable)
    (copy_number : Int) (h : copy_number < 0) :
    p.ComputeMaterial physical_volume copy_number parent_touchable
      = p.ComputeMaterial physical_volume 0 parent_touchable := by
  simp [ComputeMaterial, ComputeMaterial_index, h]

/-- C1: for a copy number `z` that is not negative (and any replica numbers
`x`, `y`, in particular non-negative ones), the material `ComputeMaterial`
returns is the result of `GetMaterial` at the index
`x + shape.x*y + shape.x*shape.y*z` (converted to `G4int`), and it is the
entry of the materials map for the bucket
`GetRoundedValue(index, -1000, 2000, 25)`. -/
theorem ComputeMaterial_returns_GetMaterial (p : G4VoxelDataParameterisation T M)
    (physical_volume : G4VPhysicalVolume M) (parent_touchable : G4VTouchable)
    (copy_number : Int) (hz : 0 ≤ copy_number) :
    let x := parent_touchable.GetReplicaNumber 0
    let y := parent_touchable.GetReplicaNumber 1
    let z := copy_number
    let linear := G4int_of_double
      ((x : ℚ) + p.volume_shape.x * (y : ℚ) + p.volume_shape.x * p.volume_shape.y * (z : ℚ))
    let bucket := p.array.GetRoundedValue linear (-1000) 2000 25
    (p.ComputeMaterial physical_volume copy_number parent_touchable).map Prod.fst
        = p.GetMaterial linear
      ∧ ∀ material : M,
          (p.ComputeMaterial physical_volume copy_number parent_touchable).map Prod.fst
              = .ok material
            ↔ p.materials_map.lookup bucket = some material := by
  intro x y z linear bucket
  have hnz : ¬ copy_number < 0 := not_lt.mpr hz
  have hidx : ComputeMaterial_index p.volume_shape x y copy_number = linear := by
    simp [ComputeMaterial_index, hnz, linear, z]
  have hret : (p.ComputeMaterial physical_volume copy_number parent_touchable).map Prod.fst
      = p.GetMaterial linear := by
    simp only [ComputeMaterial]
    rw [show ComputeMaterial_index p.volume_shape (parent_touchable.GetReplicaNumber 0)
      (parent_touchable.GetReplicaNumber 1) copy_number = linear from hidx]
    cases p.GetMaterial linear <;> rfl
  refine ⟨hret, fun material => ?_⟩
  rw [hret]
  simp only [GetMaterial]
  change (match p.materials_map.lookup bucket with
    | some material => Except.ok material
    | none => Except.error Failure.out_of_range) = Except.ok material ↔ _
  cases p.materials_map.lookup bucket <;> simp

/-- C2: `GetMaterial(i)` fails, with `std::out_of_range`, exactly when the
bucket `b = GetRoundedValue(i, -1000, 2000, 25)` is not a key of the materials
map; and on the map extended with `b -> c` the same call returns `c`. -/
theorem GetMaterial_fails_iff_unmapped (p : G4VoxelDataParameterisation T M) (i : Int) :
    let b := p.array.GetRoundedValue i (-1000) 2000 25
    ((∃ e, p.GetMaterial i = .error e) ↔ b ∉ p.materials_map)
      ∧ (p.GetMaterial i = .error .out_of_range ↔ b ∉ p.materials_map)
      ∧ ∀ c : M,
          GetMaterial { p with materials_map := p.materials_map.insert b c } i = .ok c := by
  intro b
  have key : p.GetMaterial i = (match p.materials_map.lookup b with
      | some material => Except.ok material
      | none => Except.error Failure.out_of_range) := rfl
  refine ⟨?_, ?_, fun c => ?_⟩
  · rw [key, ← AList.lookup_eq_none]
    cases p.materials_map.lookup b <;> simp
  · rw [key, ← AList.lookup_eq_none]
    cases p.materials_map.lookup b <;> simp
  · have hl : (p.materials_map.insert b c).lookup b = some c := AList.lookup_insert _
    simp only [GetMaterial]
    change (match (p.materials_map.insert b c).lookup b with
      | some material => Except.ok material
      | none => Except.error Failure.out_of_range) = Except.ok c
    rw [hl]

/-- C3, as stated, fails: in the shape `2048 x 2048 x 513` the cells
`(0, 0, 512)` and `(1, 0, 512)` are within bounds, and `ComputeMaterial`
computes the index `-2147483648` for both (the sums `2147483648` and
`2147483649` do not fit the 32-bit `int`), which is negative and does not tell
the two cells apart. -/
theorem ComputeMaterial_index_overflow_example :
    ((0 : Int) ≤ 0 ∧ (0 : Int) < (2048 : Nat)) ∧ ((0 : Int) ≤ 1 ∧ (1 : Int) < (2048 : Nat))
      ∧ ((0 : Int) ≤ 512 ∧ (512 : Int) < (513 : Nat))
      ∧ ComputeMaterial_index ⟨(2048 : Nat), (2048 : Nat), (513 : Nat)⟩ 0 0 512 = -2147483648
      ∧ ComputeMaterial_index ⟨(2048 : Nat), (2048 : Nat), (513 : Nat)⟩ 1 0 512 = -2147483648
      ∧ ¬ (0 ≤ ComputeMaterial_index ⟨(2048 : Nat), (2048 : Nat), (513 : Nat)⟩ 0 0 512)
      ∧ ¬ (ComputeMaterial_index ⟨(2048 : Nat), (2048 : Nat), (513 : Nat)⟩ 1 0 512
            = ComputeMaterial_index ⟨(2048 : Nat), (2048 : Nat), (513 : Nat)⟩ 0 0 512
          → (1 : Int) = 0 ∧ (0 : Int) = 0 ∧ (512 : Int) = 512) := by
  have h0 : ComputeMaterial_index ⟨(2048 : Nat), (2048 : Nat), (513 : Nat)⟩ 0 0 512
      = -2147483648 := by
    rw [ComputeMaterial_index_of_nat_eq 2048 2048 513 0 0 512 (by decide)]
    decide
  have h1 : ComputeMaterial_index ⟨(2048 : Nat), (2048 : Nat), (513 : Nat)⟩ 1 0 512
      = -2147483648 := by
    rw [ComputeMaterial_index_of_nat_eq 2048 2048 513 1 0 512 (by decide)]
    decide
  refine ⟨by decide, by decide, by decide, h0, h1, ?_, ?_⟩
  · rw [h0]
    decide
  · rw [h0, h1]
    intro h
    exact absurd (h rfl).1 (by decide)

/-- C3, amended: for a shape `(sx, sy, sz)` whose `length = sx*sy*sz` is at
most `2147483648`, so that the index of every cell fits the 32-bit `int`, the
index that `ComputeMaterial` computes for coordinates within bounds lies in
`[0, length)` and determines the coordinates. -/
theorem ComputeMaterial_index_injective_in_bounds (sx sy sz : Nat)
    (x y z x' y' z' : Int)
    (hlen : (sx : Int) * sy * sz ≤ 2147483648)
    (hx : 0 ≤ x ∧ x < sx) (hy : 0 ≤ y ∧ y < sy) (hz : 0 ≤ z ∧ z < sz)
    (hx' : 0 ≤ x' ∧ x' < sx) (hy' : 0 ≤ y' ∧ y' < sy) (hz' : 0 ≤ z' ∧ z' < sz) :
    let shape : G4ThreeVector := ⟨sx, sy, sz⟩
    let length : Int := sx * sy * sz
    0 ≤ ComputeMaterial_index shape x y z
      ∧ ComputeMaterial_index shape x y z < length
      ∧ (ComputeMaterial_index shape x y z = ComputeMaterial_index shape x' y' z'
          → x = x' ∧ y = y' ∧ z = z') := by
  intro shape length
  obtain ⟨hb0, hb1⟩ := linear_index_bounds sx sy sz x y z hx hy hz
  obtain ⟨hb0', hb1'⟩ := linear_index_bounds sx sy sz x' y' z' hx' hy' hz'
  have e : ComputeMaterial_index shape x y z = x + sx * y + sx * sy * z :=
    ComputeMaterial_index_of_nat sx sy sz x y z hz.1 (by linarith) (by linarith)
  have e' : ComputeMaterial_index shape x' y' z' = x' + sx * y' + sx * sy * z' :=
    ComputeMaterial_index_of_nat sx sy sz x' y' z' hz'.1 (by linarith) (by linarith)
  rw [e, e']
  refine ⟨hb0, hb1, ?_⟩
  intro h
  have h1 : x + sx * (y + sy * z) = x' + sx * (y' + sy * z') := by
    have := h
    ring_nf at this ⊢
    linarith
  obtain ⟨hxx, hrest⟩ := mixed_radix_unique hx.1 hx.2 hx'.1 hx'.2 h1
  obtain ⟨hyy, hzz⟩ := mixed_radix_unique hy.1 hy.2 hy'.1 hy'.2 hrest
  exact ⟨hxx, hyy, hzz⟩

end G4VoxelDataParameterisation

namespace G4VoxelDataParameterisation

variable {T M : Type}

/-- C9, as stated, fails: with unit voxels and shape `2 x 3 x 4` the
translation set for copy number `-1` is `(0, 0, -5/2)` and the one set for copy
number `0` is `(0, 0, -3/2)`. -/
theorem ComputeTransformation_not_clamped_example :
    (example_parameterisation.ComputeTransformation (-1) example_physical_volume).translation
        = ⟨0, 0, -5 / 2⟩
      ∧ (example_parameterisation.ComputeTransformation 0 example_physical_volume).translation
        = ⟨0, 0, -3 / 2⟩
      ∧ example_parameterisation.ComputeTransformation (-1) example_physical_volume
        ≠ example_parameterisation.ComputeTransformation 0 example_physical_volume := by
  have h1 : (example_parameterisation.ComputeTransformation (-1)
      example_physical_volume).translation = ⟨0, 0, -5 / 2⟩ := by
    simp [ComputeTransformation, example_parameterisation, construct, example_array]
    norm_num
  have h0 : (example_parameterisation.ComputeTransformation 0
      example_physical_volume).translation = ⟨0, 0, -3 / 2⟩ := by
    simp [ComputeTransformation, example_parameterisation, construct, example_array]
    norm_num
  refine ⟨h1, h0, fun h => ?_⟩
  have hz := congrArg (fun v => v.translation.z) h
  simp only [h1, h0] at hz
  norm_num at hz

/-- C9, amended: over exact rational arithmetic `ComputeTransformation` does
not clamp. For every voxel size and volume shape the translation set for copy
number `-1` is `(0, 0, -voxel_size.x/2 - voxel_size.z*volume_shape.z/2)`, the
one set for copy number `0` is
`(0, 0, voxel_size.x/2 - voxel_size.z*volume_shape.z/2)`, so the first is the
second moved by `-voxel_size.x` along z, and the two translations agree
exactly when `voxel_size.x` is zero. -/
theorem ComputeTransformation_minus_one (p : G4VoxelDataParameterisation T M)
    (physVol : G4VPhysicalVolume M) :
    (p.ComputeTransformation (-1) physVol).translation
        = ⟨0, 0, -p.voxel_size.x / 2 - p.voxel_size.z * p.volume_shape.z / 2⟩
      ∧ (p.ComputeTransformation 0 physVol).translation
        = ⟨0, 0, p.voxel_size.x / 2 - p.voxel_size.z * p.volume_shape.z / 2⟩
      ∧ (p.ComputeTransformation (-1) physVol).translation
        = ⟨0, 0, (p.ComputeTransformation 0 physVol).translation.z - p.voxel_size.x⟩
      ∧ ((p.ComputeTransformation (-1) physVol).translation
          = (p.ComputeTransformation 0 physVol).translation
          ↔ p.voxel_size.x = 0) := by
  have hm : (p.ComputeTransformation (-1) physVol).translation
      = ⟨0, 0, -p.voxel_size.x / 2 - p.voxel_size.z * p.volume_shape.z / 2⟩ := by
    simp only [ComputeTransformation]
    congr 1
    push_cast
    ring
  have h0 : (p.ComputeTransformation 0 physVol).translation
      = ⟨0, 0, p.voxel_size.x / 2 - p.voxel_size.z * p.volume_shape.z / 2⟩ := by
    simp only [ComputeTransformation]
    congr 1
    push_cast
    ring
  refine ⟨hm, h0, ?_, ?_⟩
  · rw [hm, h0]
    congr 1
    ring
  · rw [hm, h0]
    constructor
    · intro h
      have hz := congrArg G4ThreeVector.z h
      simp only at hz
      linarith
    · intro h
      rw [h]
      norm_num

/-- C10: for every copy number `k`, voxel size and volume shape,
`ComputeTransformation` sets the translation to
`(0, 0, (2*k + 1)*voxel_size.x/2 - voxel_size.z*volume_shape.z/2)` and leaves
the rest of the physical volume as it was. -/
theorem ComputeTransformation_translation (p : G4VoxelDataParameterisation T M)
    (k : Int) (physVol : G4VPhysicalVolume M) :
    (p.ComputeTransformation k physVol).translation
        = ⟨0, 0, (2 * (k : ℚ) + 1) * p.voxel_size.x / 2
            - p.voxel_size.z * p.volume_shape.z / 2⟩
      ∧ (p.ComputeTransformation k physVol).material = physVol.material := by
  refine ⟨?_, rfl⟩
  simp only [ComputeTransformation]
  push_cast
  rfl

end G4VoxelDataParameterisation

namespace G4VoxelDataParameterisation

/-- The index of the example cell: replica numbers `1` and `2`, copy number `3`
in the shape `2 x 3 x 4` give `1 + 2*2 + 2*3*3 = 23`. -/
theorem example_linear_index :
    G4int_of_double
      (((example_touchable.GetReplicaNumber 0 : Int) : ℚ)
        + example_parameterisation.volume_shape.x
            * ((example_touchable.GetReplicaNumber 1 : Int) : ℚ)
        + example_parameterisation.volume_shape.x
            * example_parameterisation.volume_shape.y * ((3 : Int) : ℚ)) = 23 := by
  have e : (((example_touchable.GetReplicaNumber 0 : Int) : ℚ)
      + example_parameterisation.volume_shape.x
          * ((example_touchable.GetReplicaNumber 1 : Int) : ℚ)
      + example_parameterisation.volume_shape.x
          * example_parameterisation.volume_shape.y * ((3 : Int) : ℚ)) = ((23 : Int) : ℚ) := by
    simp [example_touchable, example_parameterisation, construct, example_array]
    norm_num
  rw [e, G4int_of_double_intCast 23 (by decide) (by decide)]

/-- Witness of C1 on the example parameterisation: replica numbers `1` and
`2`, copy number `3`; the index is 23, its bucket 575, the material 7. -/
theorem ComputeMaterial_returns_GetMaterial_witness :
    (0 : Int) ≤ 3
      ∧ (example_parameterisation.ComputeMaterial example_physical_volume 3
            example_touchable).map Prod.fst
          = example_parameterisation.GetMaterial
              (G4int_of_double
                (((example_touchable.GetReplicaNumber 0 : Int) : ℚ)
                  + example_parameterisation.volume_shape.x
                      * ((example_touchable.GetReplicaNumber 1 : Int) : ℚ)
                  + example_parameterisation.volume_shape.x
                      * example_parameterisation.volume_shape.y * ((3 : Int) : ℚ)))
      ∧ (example_parameterisation.ComputeMaterial example_physical_volume 3
            example_touchable).map Prod.fst = .ok 7 := by
  refine ⟨by decide,
    (ComputeMaterial_returns_GetMaterial example_parameterisation example_physical_volume
      example_touchable 3 (by decide)).1,
    ((ComputeMaterial_returns_GetMaterial example_parameterisation example_physical_volume
      example_touchable 3 (by decide)).2 7).mpr ?_⟩
  rw [example_linear_index]
  decide

/-- Witness of the amended C3 on the shape `2 x 3 x 4`, at the cells
`(1, 2, 3)` and `(0, 1, 2)`. -/
theorem ComputeMaterial_index_injective_in_bounds_witness :
    (((2 : Nat) : Int) * (3 : Nat) * (4 : Nat) ≤ 2147483648)
      ∧ ((0 : Int) ≤ 1 ∧ (1 : Int) < (2 : Nat)) ∧ ((0 : Int) ≤ 2 ∧ (2 : Int) < (3 : Nat))
      ∧ ((0 : Int) ≤ 3 ∧ (3 : Int) < (4 : Nat))
      ∧ ((0 : Int) ≤ 0 ∧ (0 : Int) < (2 : Nat)) ∧ ((0 : Int) ≤ 1 ∧ (1 : Int) < (3 : Nat))
      ∧ ((0 : Int) ≤ 2 ∧ (2 : Int) < (4 : Nat))
      ∧ (0 ≤ ComputeMaterial_index ⟨(2 : Nat), (3 : Nat), (4 : Nat)⟩ 1 2 3
        ∧ ComputeMaterial_index ⟨(2 : Nat), (3 : Nat), (4 : Nat)⟩ 1 2 3
            < ((2 : Nat) : Int) * (3 : Nat) * (4 : Nat)
        ∧ (ComputeMaterial_index ⟨(2 : Nat), (3 : Nat), (4 : Nat)⟩ 1 2 3
              = ComputeMaterial_index ⟨(2 : Nat), (3 : Nat), (4 : Nat)⟩ 0 1 2
            → (1 : Int) = 0 ∧ (2 : Int) = 1 ∧ (3 : Int) = 2)) :=
  ⟨by decide, by decide, by decide, by decide, by decide, by decide, by decide,
    ComputeMaterial_index_injective_in_bounds 2 3 4 1 2 3 0 1 2 (by decide)
      (by decide) (by decide) (by decide) (by decide) (by decide) (by decide)⟩

end G4VoxelDataParameterisation

/-! ## Theorems: `DicomDataIO.hh` -/

/-- An in-bounds `v[i]` reads the element. -/
theorem vector_get_of_lt {α : Type} (v : List α) (i : Nat) (d : α) (h : i < v.length) :
    vector_get v i = .ok (v.getD i d) := by
  simp [vector_get, List.getD, List.getElem?_eq_getElem h]

/-- An in-bounds `v[i] = a` writes the element. -/
theorem vector_set_of_lt {α : Type} (v : List α) (i : Nat) (a : α) (h : i < v.length) :
    vector_set v i a = .ok (v.set i a) := by
  simp [vector_set, h]

/-- Writing back the element just read leaves a vector as it is. -/
theorem set_getD_self {α : Type} (v : List α) (i : Nat) (d : α) :
    v.set i (v.getD i d) = v := by
  induction v generalizing i with
  | nil => simp
  | cons a t ih =>
    cases i with
    | zero => simp
    | succ j => simpa using ih j

namespace DicomDataIO

/-- On slices that have an axis 2 the loop of `ReadDirectory` runs to its end:
buffers are appended, lengths and axis-2 extents summed, and `last_position`
becomes the axis-2 origin of the last slice (it keeps its value when there is
no further slice). -/
theorem ReadDirectory_loop_ok (read : String → G4VoxelData) :
    ∀ (rest : List String) (voxel_data : G4VoxelData) (last_position : ℚ),
      2 < voxel_data.shape.length → (∀ f ∈ rest, three_axes (read f)) →
      ReadDirectory_loop read rest voxel_data last_position = .ok
        ({ voxel_data with
            array := voxel_data.array ++ (rest.map (fun f => (read f).array)).flatten
            length := voxel_data.length + (rest.map (fun f => (read f).length)).sum
            shape := voxel_data.shape.set 2
              (voxel_data.shape.getD 2 0 + (rest.map (fun f => (read f).shape.getD 2 0)).sum) },
          match rest.getLast? with
          | some f => (read f).origin.getD 2 0
          | none => last_position) := by
  intro rest
  induction rest with
  | nil =>
    intro voxel_data last_position _ _
    have hself := set_getD_self voxel_data.shape 2 0
    simp only [ReadDirectory_loop, List.map_nil, List.flatten_nil, List.append_nil,
      List.sum_nil, Nat.add_zero, hself, List.getLast?_nil]
  | cons f fs ih =>
    intro voxel_data last_position hv hall
    have hf : three_axes (read f) := hall f (List.mem_cons_self _ _)
    have hfs : ∀ g ∈ fs, three_axes (read g) := fun g hg => hall g (List.mem_cons_of_mem _ hg)
    have hset : 2 < (voxel_data.shape.set 2
        (voxel_data.shape.getD 2 0 + (read f).shape.getD 2 0)).length := by
      simpa using hv
    rw [ReadDirectory_loop]
    simp only [vector_get_of_lt voxel_data.shape 2 0 hv, vector_get_of_lt (read f).shape 2 0 hf.1,
      vector_set_of_lt voxel_data.shape 2 _ hv, vector_get_of_lt (read f).origin 2 0 hf.2.2]
    cases fs with
    | nil =>
      simp only [ReadDirectory_loop, List.isEmpty_nil, if_true, List.map_cons, List.map_nil,
        List.flatten_cons, List.flatten_nil, List.append_nil, List.sum_cons, List.sum_nil,
        Nat.add_zero, List.getLast?_singleton]
    | cons g gs =>
      have := ih { voxel_data with
          array := voxel_data.array ++ (read f).array
          length := voxel_data.length + (read f).length
          shape := voxel_data.shape.set 2
            (voxel_data.shape.getD 2 0 + (read f).shape.getD 2 0) } last_position hset hfs
      simp only [List.isEmpty_cons, Bool.false_eq_true, if_false]
      rw [this]
      have hget : (voxel_data.shape.set 2
          (voxel_data.shape.getD 2 0 + (read f).shape.getD 2 0)).getD 2 0
          = voxel_data.shape.getD 2 0 + (read f).shape.getD 2 0 := by
        simp [List.getD_eq_getElem?_getD, hv]
      simp only [hget, List.set_set, List.map_cons, List.flatten_cons, List.sum_cons,
        List.append_assoc, Nat.add_assoc, List.getLast?_cons_cons]

/-- With entries at index `k` the recentring statement writes
`origin[k] + shape[k]*spacing[k]/2` into `origin[k]`. -/
theorem recentre_in_plane_ok (voxel_data : G4VoxelData) (k : Nat)
    (ho : k < voxel_data.origin.length) (hs : k < voxel_data.shape.length)
    (hp : k < voxel_data.spacing.length) :
    recentre_in_plane voxel_data k = .ok
      { voxel_data with
          origin := voxel_data.origin.set k
            (voxel_data.origin.getD k 0
              + (voxel_data.shape.getD k 0 : ℚ) * voxel_data.spacing.getD k 0 / 2) } := by
  simp only [recentre_in_plane, vector_get_of_lt voxel_data.origin k 0 ho,
    vector_get_of_lt voxel_data.shape k 0 hs, vector_get_of_lt voxel_data.spacing k 0 hp,
    vector_set_of_lt voxel_data.origin k _ ho]

/-- The value `ReadDirectory` returns for the file names `first :: rest` when
every slice read has an axis 2. -/
theorem ReadDirectory_ok (read : String → G4VoxelData) (first : String)
    (rest : List String) (last_position : ℚ)
    (h : ∀ f ∈ first :: rest, three_axes (read f)) :
    ReadDirectory read (first :: rest) last_position = .ok
      { array := ((first :: rest).map (fun f => (read f).array)).flatten
        length := ((first :: rest).map (fun f => (read f).length)).sum
        ndims := 3
        shape := (read first).shape.set 2
          (((first :: rest).map (fun f => (read f).shape.getD 2 0)).sum)
        spacing := (read first).spacing
        origin := (((read first).origin.set 0
            ((read first).origin.getD 0 0
              + ((read first).shape.getD 0 0 : ℚ) * (read first).spacing.getD 0 0 / 2)).set 1
            ((read first).origin.getD 1 0
              + ((read first).shape.getD 1 0 : ℚ) * (read first).spacing.getD 1 0 / 2)).set 2
            ((read first).origin.getD 2 0
              + ((match rest.getLast? with
                  | some f => (read f).origin.getD 2 0
                  | none => last_position) - (read first).origin.getD 2 0) / 2)
        type := (read first).type } := by
  have h0 : three_axes (read first) := h first (List.mem_cons_self _ _)
  have hrest : ∀ f ∈ rest, three_axes (read f) := fun f hf => h f (List.mem_cons_of_mem _ hf)
  obtain ⟨hs, hp, ho⟩ := h0
  have hfile : vector_get (first :: rest) 0 = .ok first := by simp [vector_get]
  simp only [ReadDirectory, hfile, List.tail_cons, vector_get_of_lt (read first).origin 2 0 ho,
    ReadDirectory_loop_ok read rest (read first) last_position hs hrest]
  rw [recentre_in_plane_ok _ 0 (by simp; omega) (by simp; omega) (by simp; omega)]
  simp only []
  rw [recentre_in_plane_ok _ 1 (by simp; omega) (by simp; omega) (by simp; omega)]
  simp only []
  rw [vector_set_of_lt _ 2 _ (by simp; omega)]
  have e0 : ((read first).shape.set 2 ((read first).shape.getD 2 0
      + (rest.map (fun f => (read f).shape.getD 2 0)).sum)).getD 0 0
      = (read first).shape.getD 0 0 := by
    simp [List.getD_eq_getElem?_getD, List.getElem?_set]
  have e1 : ((read first).shape.set 2 ((read first).shape.getD 2 0
      + (rest.map (fun f => (read f).shape.getD 2 0)).sum)).getD 1 0
      = (read first).shape.getD 1 0 := by
    simp [List.getD_eq_getElem?_getD, List.getElem?_set]
  have e2 : ∀ a : ℚ, ((read first).origin.set 0 a).getD 1 0 = (read first).origin.getD 1 0 := by
    intro a
    simp [List.getD_eq_getElem?_getD, List.getElem?_set]
  simp only [e0, e1, e2, List.map_cons, List.flatten_cons, List.sum_cons]

/-- Every slice of the example directory has an axis 2. -/
theorem example_read_three_axes (f : String) : three_axes (example_read f) := by
  unfold example_read
  split_ifs <;> simp [three_axes, example_slice, example_small_slice]

/-- C4: for every non-empty list of loaded slices that have an axis 2,
`ReadDirectory` returns a volume that agrees with the reference stacking of
the list: its buffer is the slices' buffers appended in list order, its
length the sum of their lengths, its `shape[2]` the sum of their `shape[2]`,
its in-plane shape the first slice's, and `ndims` is 3. -/
theorem ReadDirectory_equals_reference_stacking (read : String → G4VoxelData)
    (first : String) (rest : List String) (last_position : ℚ)
    (h : ∀ f ∈ first :: rest, three_axes (read f)) :
    ∃ v, ReadDirectory read (first :: rest) last_position = .ok v
      ∧ (⟨v.array, v.length, v.shape, v.ndims⟩ : StackedShape)
          = reference_stacking (read first) (rest.map read)
      ∧ v.array = ((first :: rest).map (fun f => (read f).array)).flatten
      ∧ v.length = ((first :: rest).map (fun f => (read f).length)).sum
      ∧ v.shape[2]? = some (((first :: rest).map (fun f => (read f).shape.getD 2 0)).sum)
      ∧ v.shape[0]? = (read first).shape[0]?
      ∧ v.shape[1]? = (read first).shape[1]?
      ∧ v.shape.length = (read first).shape.length
      ∧ v.ndims = 3 := by
  have hs : 2 < (read first).shape.length := (h first (List.mem_cons_self _ _)).1
  refine ⟨_, ReadDirectory_ok read first rest last_position h, ?_, rfl, rfl, ?_, ?_, ?_, ?_, rfl⟩
  · simp [reference_stacking, List.map_map, Function.comp_def]
  · simp [List.getElem?_set, hs]
  · simp [List.getElem?_set]
  · simp [List.getElem?_set]
  · simp

/-- Witness of C4: three slices of shape `(4, 4, 1)` stack to shape
`(4, 4, 3)`, length 48, with the three buffers in order. -/
theorem ReadDirectory_equals_reference_stacking_witness :
    (∀ f ∈ ["slice0", "slice1", "slice2"], three_axes (example_read f))
      ∧ ∃ v, ReadDirectory example_read ["slice0", "slice1", "slice2"] 0 = .ok v
          ∧ v.shape = [4, 4, 3] ∧ v.length = 48 ∧ v.ndims = 3
          ∧ v.array = List.replicate 32 0 ++ List.replicate 32 1 ++ List.replicate 32 2 := by
  refine ⟨fun f _ => example_read_three_axes f, ?_⟩
  obtain ⟨v, hv, href, _, _, _, _, _, _, _⟩ :=
    ReadDirectory_equals_reference_stacking example_read "slice0" ["slice1", "slice2"] 0
      (fun f _ => example_read_three_axes f)
  have hr : reference_stacking (example_read "slice0") (["slice1", "slice2"].map example_read)
      = ⟨List.replicate 32 0 ++ List.replicate 32 1 ++ List.replicate 32 2, 48, [4, 4, 3], 3⟩ := by
    decide
  rw [hr] at href
  injection href with ha hl hsh hn
  exact ⟨v, hv, hsh, hl, hn, ha⟩

/-- From two slices on, the axis-2 origin of the stacked volume is the
midpoint of the axis-2 origins of the first and the last slice. -/
theorem ReadDirectory_axis2_origin_of_two (read : String → G4VoxelData)
    (first second : String) (rest : List String) (last_position : ℚ)
    (h : ∀ f ∈ first :: second :: rest, three_axes (read f)) :
    ∃ v, ReadDirectory read (first :: second :: rest) last_position = .ok v
      ∧ v.origin[2]? = some (reference_axis2_origin (read first) ((second :: rest).map read)) := by
  have ho : 2 < (read first).origin.length := (h first (List.mem_cons_self _ _)).2.2
  refine ⟨_, ReadDirectory_ok read first (second :: rest) last_position h, ?_⟩
  have hlast : (second :: rest).getLast? = some ((second :: rest).getLast (by simp)) :=
    List.getLast?_eq_getLast _ _
  have hmap : (read first :: (second :: rest).map read).getLast?
      = some (read ((second :: rest).getLast (by simp))) := by
    rw [List.map_cons, List.getLast?_cons_cons, ← List.map_cons, List.getLast?_map, hlast]
    rfl
  simp only [reference_axis2_origin, hmap, hlast, Option.getD_some]
  simp [List.getElem?_set, ho]

/-- With a single slice the loop body never runs, and the axis-2 origin of
the result is computed from whatever `last_position` holds. -/
theorem ReadDirectory_axis2_origin_of_one (read : String → G4VoxelData)
    (first : String) (last_position : ℚ) (h : three_axes (read first)) :
    ∃ v, ReadDirectory read [first] last_position = .ok v
      ∧ v.origin[2]? = some ((read first).origin.getD 2 0
          + (last_position - (read first).origin.getD 2 0) / 2) := by
  have hall : ∀ f ∈ [first], three_axes (read f) := by
    intro f hf
    rw [List.mem_singleton] at hf
    rw [hf]
    exact h
  refine ⟨_, ReadDirectory_ok read first [] last_position hall, ?_⟩
  simp [List.getElem?_set, h.2.2]

/-- Three slices with axis-2 origins `0`, `5` and `10` stack to a volume with
axis-2 origin `5`, whatever `last_position` held. -/
theorem ReadDirectory_three_slices_axis2_origin (last_position : ℚ) :
    ∃ v, ReadDirectory example_read ["slice0", "slice1", "slice2"] last_position = .ok v
      ∧ v.origin[2]? = some 5 := by
  obtain ⟨v, hv, ho⟩ := ReadDirectory_axis2_origin_of_two example_read "slice0" "slice1"
    ["slice2"] last_position (fun f _ => example_read_three_axes f)
  refine ⟨v, hv, ?_⟩
  rw [ho]
  have e0 : example_read "slice0" = example_slice 0 0 := by decide
  have e2 : example_read "slice2" = example_slice 2 10 := by decide
  simp only [reference_axis2_origin, List.map_cons, List.map_nil, List.getLast?_cons_cons,
    List.getLast?_singleton, Option.getD_some, e0, e2, example_slice, List.getD_cons_succ,
    List.getD_cons_zero]
  norm_num

/-- C5 at a single slice: for the one slice with axis-2 origin `5`,
`ReadDirectory` returns axis-2 origin `5 + (last_position - 5)/2`, where
`last_position` is the value of the local that was never assigned; it is the
slice's own origin `5` only when that value is `5`, and for the value `0` it
is `5/2`. -/
theorem ReadDirectory_single_slice_axis2_origin (last_position : ℚ) :
    ∃ v, ReadDirectory example_read ["slice1"] last_position = .ok v
      ∧ (example_read "slice1").origin[2]? = some 5
      ∧ v.origin[2]? = some (5 + (last_position - 5) / 2)
      ∧ (v.origin[2]? = some 5 ↔ last_position = 5) := by
  obtain ⟨v, hv, ho⟩ := ReadDirectory_axis2_origin_of_one example_read "slice1" last_position
    (example_read_three_axes _)
  have h5 : (example_read "slice1").origin = [0, 0, 5] := by
    simp [example_read, example_slice]
  rw [h5] at ho
  simp only [List.getD_cons_succ, List.getD_cons_zero] at ho
  refine ⟨v, hv, by rw [h5]; rfl, ho, ?_⟩
  rw [ho, Option.some.injEq]
  constructor
  · intro h
    linarith
  · intro h
    rw [h]
    norm_num

/-- C6 on the code: with no file name left, `ReadDirectory` evaluates
`filenames[0]` on an empty vector; no empty-input error is raised. -/
theorem ReadDirectory_empty (read : String → G4VoxelData) (last_position : ℚ) :
    ReadDirectory read [] last_position = .error Failure.undefined_behaviour := by
  simp [ReadDirectory, vector_get]

/-- C7, as stated, fails: a `(4, 4, 1)` slice followed by a `(2, 2, 1)` slice
is stacked without complaint, into a volume of shape `(4, 4, 2)` and length
`20`. -/
theorem ReadDirectory_shape_mismatch_example :
    (example_read "small").shape = [2, 2, 1]
      ∧ (example_read "slice0").shape = [4, 4, 1]
      ∧ ReadDirectory example_read ["slice0", "small"] 0 = .ok
          { array := List.replicate 32 0 ++ List.replicate 8 9
            length := 20
            ndims := 3
            shape := [4, 4, 2]
            spacing := [1, 1, 1]
            origin := [2, 2, 5 / 2]
            type := G4VoxelDataType.INT16 } := by
  refine ⟨by decide, by decide, ?_⟩
  rw [ReadDirectory_ok example_read "slice0" ["small"] 0 (fun f _ => example_read_three_axes f)]
  have e0 : example_read "slice0" = example_slice 0 0 := by decide
  have e1 : example_read "small" = example_small_slice := by decide
  simp only [List.map_cons, List.map_nil, List.getLast?_singleton, e0, e1]
  simp [example_slice, example_small_slice]
  norm_num

/-- C7, amended: `ReadDirectory` makes no shape check. Also when a slice after
the first has an in-plane shape different from the first slice's, it returns
the stacked volume, with the in-plane shape of the first slice, the buffers
appended and the lengths summed. -/
theorem ReadDirectory_ignores_in_plane_shape (read : String → G4VoxelData)
    (first : String) (rest : List String) (last_position : ℚ)
    (h : ∀ f ∈ first :: rest, three_axes (read f))
    (_hmismatch : ∃ f ∈ rest, ((read f).shape[0]?, (read f).shape[1]?)
      ≠ ((read first).shape[0]?, (read first).shape[1]?)) :
    ∃ v, ReadDirectory read (first :: rest) last_position = .ok v
      ∧ v.shape[0]? = (read first).shape[0]?
      ∧ v.shape[1]? = (read first).shape[1]?
      ∧ v.array = ((first :: rest).map (fun f => (read f).array)).flatten
      ∧ v.length = ((first :: rest).map (fun f => (read f).length)).sum := by
  refine ⟨_, ReadDirectory_ok read first rest last_position h, ?_, ?_, rfl, rfl⟩
  · simp [List.getElem?_set]
  · simp [List.getElem?_set]

/-- Witness of the amended C7: the `(4, 4, 1)` slice followed by the
`(2, 2, 1)` slice. -/
theorem ReadDirectory_ignores_in_plane_shape_witness :
    (∀ f ∈ ["slice0", "small"], three_axes (example_read f))
      ∧ (∃ f ∈ ["small"], ((example_read f).shape[0]?, (example_read f).shape[1]?)
          ≠ ((example_read "slice0").shape[0]?, (example_read "slice0").shape[1]?))
      ∧ ∃ v, ReadDirectory example_read ["slice0", "small"] 0 = .ok v
          ∧ v.shape[0]? = (example_read "slice0").shape[0]?
          ∧ v.shape[1]? = (example_read "slice0").shape[1]?
          ∧ v.array = (["slice0", "small"].map (fun f => (example_read f).array)).flatten
          ∧ v.length = (["slice0", "small"].map (fun f => (example_read f).length)).sum :=
  ⟨fun f _ => example_read_three_axes f, ⟨"small", by simp, by decide⟩,
    ReadDirectory_ignores_in_plane_shape example_read "slice0" ["small"] 0
      (fun f _ => example_read_three_axes f) ⟨"small", by simp, by decide⟩⟩

/-- C8 on the code: the vectors `Read` builds have `sizeof(unsigned int)*ndims`
entries for `shape` and `sizeof(double) + ndims` entries for `spacing` and
`origin`, not `ndims` entries: `spacing` and `origin` never have `ndims`
entries, and `shape` has them only for `ndims = 0`. -/
theorem Read_vector_lengths (Rescale : ℚ → ℚ → (Nat → Int) → Nat → (Nat → Int))
    (image : Image) :
    (Read Rescale image).ndims = image.GetNumberOfDimensions
      ∧ (Read Rescale image).shape.length = 4 * image.GetNumberOfDimensions
      ∧ (Read Rescale image).spacing.length = 8 + image.GetNumberOfDimensions
      ∧ (Read Rescale image).origin.length = 8 + image.GetNumberOfDimensions
      ∧ (Read Rescale image).spacing.length ≠ (Read Rescale image).ndims
      ∧ (Read Rescale image).origin.length ≠ (Read Rescale image).ndims
      ∧ ((Read Rescale image).shape.length = (Read Rescale image).ndims
          ↔ image.GetNumberOfDimensions = 0) := by
  refine ⟨rfl, ?_, ?_, ?_, ?_, ?_, ?_⟩ <;>
    simp only [Read, vector_of_range, List.length_map, List.length_range, sizeof_unsigned_int,
      sizeof_double] <;>
    omega

/-- The example image has two dimensions, and `Read` gives it a `shape` of
eight entries and a `spacing` and an `origin` of ten. -/
theorem Read_example_image_lengths :
    (Read example_Rescale example_image).ndims = 2
      ∧ (Read example_Rescale example_image).shape.length = 8
      ∧ (Read example_Rescale example_image).spacing.length = 10
      ∧ (Read example_Rescale example_image).origin.length = 10 := by
  decide

end DicomDataIO

end G4Voxel
